import Mathlib

/-!
Verification of the agent-to-agent messaging and routing core:
message envelopes, the communication log, the tool gateway, the two
specialist agents and the router, shallowly embedded from the Python
source (a2a_protocol.py, mcp_client.py, data_agent.py, support_agent.py,
router_agent.py).
-/

/-- Python-style dynamic values (the subset the program manipulates:
None, bools, ints, strings, lists, dicts with string keys). -/
inductive Val where
  | vnull : Val
  | vbool : Bool → Val
  | vint : Int → Val
  | vstr : String → Val
  | varr : List Val → Val
  | vobj : List (String × Val) → Val
deriving Repr

/-- A Python dict with string keys, in insertion order. -/
abbrev Dict := List (String × Val)

/-- Python truthiness (`if x:`) for the value subset modelled. -/
def truthy : Val → Bool
  | .vnull => false
  | .vbool b => b
  | .vint n => n != 0
  | .vstr s => s != ""
  | .varr xs => !xs.isEmpty
  | .vobj fs => !fs.isEmpty

/-- `d.get(k)`: None when the key is absent. -/
def dictGet (d : Dict) (k : String) : Val :=
  match d.find? (fun kv => kv.1 == k) with
  | some kv => kv.2
  | none => .vnull

/-- `k in d`. -/
def hasKey (d : Dict) (k : String) : Bool :=
  d.any (fun kv => kv.1 == k)

/-- `d.get(k, dflt)`: the default is used only when the key is absent. -/
def dictGetD (d : Dict) (k : String) (dflt : Val) : Val :=
  match d.find? (fun kv => kv.1 == k) with
  | some kv => kv.2
  | none => dflt

/-- `d[k]`: raises KeyError when the key is absent. -/
def dictGetE (d : Dict) (k : String) : Except String Val :=
  match d.find? (fun kv => kv.1 == k) with
  | some kv => .ok kv.2
  | none => .error ("KeyError: " ++ k)

/-- Python `==` between a value and a string: true only for an equal string. -/
def valEqStr (v : Val) (s : String) : Bool :=
  match v with
  | .vstr t => t == s
  | _ => false

/-- Attribute-style `v.get(k)` on an arbitrary value: only dicts have `.get`;
on `None` (or any non-dict) Python raises AttributeError. -/
def vget (v : Val) (k : String) : Except String Val :=
  match v with
  | .vobj fs => .ok (dictGet fs k)
  | .vnull => .error "AttributeError: NoneType object has no attribute get"
  | _ => .error "AttributeError: object has no attribute get"

mutual

/-- Python `repr` on the modelled value subset (string escaping not modelled;
no string the program builds needs it). -/
def pyRepr : Val → String
  | .vnull => "None"
  | .vbool true => "True"
  | .vbool false => "False"
  | .vint n => toString n
  | .vstr s => "\x27" ++ s ++ "\x27"
  | .varr xs => "[" ++ pyReprList xs ++ "]"
  | .vobj fs => "\x7b" ++ pyReprPairs fs ++ "\x7d"

/-- Comma-separated `repr`s of list elements. -/
def pyReprList : List Val → String
  | [] => ""
  | [x] => pyRepr x
  | x :: y :: xs => pyRepr x ++ ", " ++ pyReprList (y :: xs)

/-- Comma-separated `repr`s of dict items. -/
def pyReprPairs : List (String × Val) → String
  | [] => ""
  | [kv] => "\x27" ++ kv.1 ++ "\x27: " ++ pyRepr kv.2
  | kv :: lw :: fs => "\x27" ++ kv.1 ++ "\x27: " ++ pyRepr kv.2 ++ ", " ++ pyReprPairs (lw :: fs)

end

/-- Python `str` (as used by f-string interpolation). -/
def pyStr : Val → String
  | .vstr s => s
  | v => pyRepr v

/-- An optional string rendered into a dict value (None becomes null). -/
def optStrToVal : Option String → Val
  | some s => .vstr s
  | none => .vnull

/-- `A2AMessage` (a2a_protocol.py lines 11-66): JSON-RPC 2.0 request
envelope. Fields are typed per the source type hints. -/
structure A2AMessage where
  jsonrpc : String
  method : String
  params : Val
  from_agent : String
  to_agent : String
  id : String
  timestamp : String
deriving Repr

/-- `A2AMessage.__init__`. `uuid.uuid4()` and `datetime.now().isoformat()`
are nondeterministic, so the freshly drawn uuid string and the clock
reading are explicit parameters; `id or str(uuid.uuid4())` keeps a truthy
(non-empty) supplied id and otherwise draws a fresh uuid. -/
def A2AMessage.init (method : String) (params : Val) (from_agent to_agent : String)
    (id : Option String) (freshUuid now : String) : A2AMessage :=
  { jsonrpc := "2.0", method := method, params := params,
    from_agent := from_agent, to_agent := to_agent,
    id := match id with
          | some s => if s == "" then freshUuid else s
          | none => freshUuid,
    timestamp := now }

/-- `A2AMessage.to_dict`. -/
def A2AMessage.to_dict (m : A2AMessage) : Dict :=
  [("jsonrpc", .vstr m.jsonrpc), ("method", .vstr m.method), ("params", m.params),
   ("id", .vstr m.id), ("from_agent", .vstr m.from_agent), ("to_agent", .vstr m.to_agent),
   ("timestamp", .vstr m.timestamp)]

/-- A dict value where the source type hints promise a `str`. -/
def expectStr : Val → Except String String
  | .vstr s => .ok s
  | _ => .error "TypeError: expected str"

/-- `A2AMessage.from_dict`: `data["method"]` etc. raise KeyError when
absent; `data.get("id")` yields None when absent, in which case the
constructor draws a fresh uuid; a supplied `timestamp` overwrites the
construction-time one. -/
def A2AMessage.from_dict (data : Dict) (freshUuid now : String) :
    Except String A2AMessage := do
  let method ← expectStr (← dictGetE data "method")
  let params ← dictGetE data "params"
  let from_agent ← expectStr (← dictGetE data "from_agent")
  let to_agent ← expectStr (← dictGetE data "to_agent")
  let idOpt ← match dictGet data "id" with
    | .vnull => pure (none : Option String)
    | .vstr s => pure (some s)
    | _ => Except.error "TypeError: expected str"
  let msg := A2AMessage.init method params from_agent to_agent idOpt freshUuid now
  if hasKey data "timestamp" then
    let ts ← expectStr (← dictGetE data "timestamp")
    pure { msg with timestamp := ts }
  else
    pure msg

/-- `A2AResponse` (a2a_protocol.py lines 69-125): JSON-RPC 2.0 response
envelope. `result` is any value (None by default); `error` is an optional
dict; `id` and `from_agent` default to None. -/
structure A2AResponse where
  jsonrpc : String
  result : Val
  error : Option Dict
  id : Option String
  from_agent : Option String
  timestamp : String
deriving Repr

/-- `A2AResponse.__init__` with the clock reading as a parameter. -/
def A2AResponse.init (result : Val) (error : Option Dict) (id : Option String)
    (from_agent : Option String) (now : String) : A2AResponse :=
  { jsonrpc := "2.0", result := result, error := error, id := id,
    from_agent := from_agent, timestamp := now }

/-- Truthiness of the `error` field (`if self.error:`): an `Optional[Dict]`
is truthy iff it is present and non-empty. -/
def errTruthy : Option Dict → Bool
  | none => false
  | some d => !d.isEmpty

/-- `A2AResponse.to_dict`: the base mapping always carries jsonrpc, id,
from_agent, timestamp; then `error` is added when the error field is
truthy, otherwise `result` is added. -/
def A2AResponse.to_dict (r : A2AResponse) : Dict :=
  let response : Dict :=
    [("jsonrpc", .vstr r.jsonrpc), ("id", optStrToVal r.id),
     ("from_agent", optStrToVal r.from_agent), ("timestamp", .vstr r.timestamp)]
  if errTruthy r.error then
    response ++ [("error", .vobj (r.error.getD []))]
  else
    response ++ [("result", r.result)]

/-- One communication-log entry: the dict `\x7b"type": ..., "data": ...\x7d`
the logger appends. -/
abbrev LogEntry := Dict

/-- The `A2ALogger.messages` list. -/
abbrev Logger := List LogEntry

/-- `A2ALogger.log_message`: append a message-kind entry built from
`message.to_dict()` (console printing has no effect on the log state). -/
def A2ALogger.log_message (log : Logger) (message : A2AMessage) : Logger :=
  log ++ [[("type", .vstr "message"), ("data", .vobj message.to_dict)]]

/-- `A2ALogger.log_response`: append a response-kind entry built from
`response.to_dict()`. -/
def A2ALogger.log_response (log : Logger) (response : A2AResponse) : Logger :=
  log ++ [[("type", .vstr "response"), ("data", .vobj response.to_dict)]]

/-- `A2ALogger.clear`. -/
def A2ALogger.clear (_ : Logger) : Logger := []

/-- `A2ALogger.get_all_messages`. -/
def A2ALogger.get_all_messages (log : Logger) : Logger := log

/-- `msg["data"].get(k)` on a log entry; every entry the logger itself
creates carries a dict under "data". -/
def entryDataGet (msg : LogEntry) (k : String) : Val :=
  match dictGet msg "data" with
  | .vobj d => dictGet d k
  | _ => .vnull

/-- `A2ALogger.get_conversation`: entries whose payload id equals the
given id, in append order. -/
def A2ALogger.get_conversation (log : Logger) (message_id : String) : Logger :=
  log.filter (fun msg => valEqStr (entryDataGet msg "id") message_id)

/-- `m["type"] == "message"`. -/
def isMessageEntry (m : LogEntry) : Bool := valEqStr (dictGet m "type") "message"

/-- `m["type"] == "response"`. -/
def isResponseEntry (m : LogEntry) : Bool := valEqStr (dictGet m "type") "response"

/-- `m["type"] == "response" and m["data"].get("error")`. -/
def isErrorEntry (m : LogEntry) : Bool :=
  isResponseEntry m && truthy (entryDataGet m "error")

/-- `A2ALogger.summary`. -/
def A2ALogger.summary (log : Logger) : Dict :=
  [("total_communications", .vint log.length),
   ("messages_sent", .vint (log.countP (fun m => isMessageEntry m))),
   ("responses_received", .vint (log.countP (fun m => isResponseEntry m))),
   ("errors", .vint (log.countP (fun m => isErrorEntry m)))]

/-- Attribute access needed before `.get` calls on `params`: only a dict
has `.get`; anything else raises AttributeError inside the agents
(or TypeError for a `**params` splat — both are exceptions, which is all
the wrapper logic observes). -/
def asDict : Val → Except String Dict
  | .vobj d => .ok d
  | .vnull => .error "AttributeError: NoneType object has no attribute get"
  | _ => .error "AttributeError: object has no attribute get"

/-- The Data Agent's six internal operations (data_agent.py lines
121-291). Each calls the Tool Gateway and/or the Text Generator, both
external, so the operations are abstract functions that either return a
value or raise (an `Except.error` carries the exception's message). -/
structure DataOps where
  get_customer : Val → Except String Val
  list_customers : Val → Val → Except String Val
  update_customer : Val → Dict → Except String Val
  get_customer_history : Val → Except String Val
  create_ticket : Val → Val → Val → Except String Val
  get_tickets : Dict → Except String Val

/-- The `try` body of `CustomerDataAgent.handle_message` (data_agent.py
lines 67-98): route by method name, extracting arguments from `params`
exactly as the source does (`params.get` with the source's defaults;
`update_customer` receives the params minus `customer_id` as keyword
splat; unknown methods yield an in-band error result). -/
def dataDispatch (ops : DataOps) (method : String) (params : Val) : Except String Val :=
  if method == "get_customer" then do
    let d ← asDict params
    ops.get_customer (dictGet d "customer_id")
  else if method == "list_customers" then do
    let d ← asDict params
    ops.list_customers (dictGetD d "status" (.vstr "all")) (dictGetD d "limit" (.vint 10))
  else if method == "update_customer" then do
    let d ← asDict params
    ops.update_customer (dictGet d "customer_id") (d.filter (fun kv => kv.1 != "customer_id"))
  else if method == "get_customer_history" then do
    let d ← asDict params
    ops.get_customer_history (dictGet d "customer_id")
  else if method == "create_ticket" then do
    let d ← asDict params
    ops.create_ticket (dictGet d "customer_id") (dictGet d "issue")
      (dictGetD d "priority" (.vstr "medium"))
  else if method == "get_tickets" then do
    let d ← asDict params
    ops.get_tickets d
  else .ok (.vobj [("error", .vstr ("Unknown method: " ++ method))])

/-- `CustomerDataAgent.handle_message` (data_agent.py lines 52-119): log
the incoming envelope, run the dispatch inside `try`, wrap success as a
result envelope and any exception as an error envelope with code -32603
and the exception's message, log the outgoing envelope, return it. -/
def CustomerDataAgent.handle_message (ops : DataOps) (message : A2AMessage)
    (respNow : String) (log : Logger) : A2AResponse × Logger :=
  let log := A2ALogger.log_message log message
  let response :=
    match dataDispatch ops message.method message.params with
    | .ok result => A2AResponse.init result none (some message.id) (some "data_agent") respNow
    | .error e =>
        A2AResponse.init .vnull (some [("code", .vint (-32603)), ("message", .vstr e)])
          (some message.id) (some "data_agent") respNow
  (response, A2ALogger.log_response log response)

/-- The Support Agent's four internal operations (support_agent.py lines
113-278), abstract for the same reason as `DataOps`. -/
structure SupportOps where
  handle_support_query : Val → Val → Val → Except String Val
  analyze_urgency : Val → Except String Val
  generate_response : Val → Val → Except String Val
  get_tickets : Dict → Except String Val

/-- The `try` body of `SupportAgent.handle_message` (support_agent.py
lines 68-90). -/
def supportDispatch (ops : SupportOps) (method : String) (params : Val) : Except String Val :=
  if method == "handle_support_query" then do
    let d ← asDict params
    ops.handle_support_query (dictGet d "query") (dictGet d "customer_context")
      (dictGet d "ticket_context")
  else if method == "analyze_urgency" then do
    let d ← asDict params
    ops.analyze_urgency (dictGet d "query")
  else if method == "generate_response" then do
    let d ← asDict params
    ops.generate_response (dictGet d "query") (dictGetD d "context" (.vobj []))
  else if method == "get_tickets" then do
    let d ← asDict params
    ops.get_tickets d
  else .ok (.vobj [("error", .vstr ("Unknown method: " ++ method))])

/-- `SupportAgent.handle_message` (support_agent.py lines 53-111): same
wrapper as the Data Agent's. -/
def SupportAgent.handle_message (ops : SupportOps) (message : A2AMessage)
    (respNow : String) (log : Logger) : A2AResponse × Logger :=
  let log := A2ALogger.log_message log message
  let response :=
    match supportDispatch ops message.method message.params with
    | .ok result => A2AResponse.init result none (some message.id) (some "support_agent") respNow
    | .error e =>
        A2AResponse.init .vnull (some [("code", .vint (-32603)), ("message", .vstr e)])
          (some message.id) (some "support_agent") respNow
  (response, A2ALogger.log_response log response)

/-- The six Data Store operations behind the Tool Gateway
(mcp_server.py `_get_customer` etc.). They run SQL against the external
store, so they are abstract functions that return a value or raise. -/
structure MCPOps where
  get_customer : Val → Except String Val
  list_customers : Val → Val → Except String Val
  update_customer : Val → Val → Val → Val → Val → Except String Val
  create_ticket : Val → Val → Val → Except String Val
  get_customer_history : Val → Except String Val
  get_tickets : Val → Val → Val → Except String Val

/-- The `try` body of `MCPClient.call_tool` (mcp_client.py lines 54-94):
route by tool name; `arguments["customer_id"]` and friends raise KeyError
when absent, `arguments.get` supplies the source's defaults; an unknown
tool name yields the in-band unknown-tool result. -/
def callToolBody (ops : MCPOps) (tool_name : String) (arguments : Dict) :
    Except String Val :=
  if tool_name == "get_customer" then do
    ops.get_customer (← dictGetE arguments "customer_id")
  else if tool_name == "list_customers" then
    ops.list_customers (dictGetD arguments "status" (.vstr "all"))
      (dictGetD arguments "limit" (.vint 10))
  else if tool_name == "update_customer" then do
    ops.update_customer (← dictGetE arguments "customer_id")
      (dictGet arguments "name") (dictGet arguments "email")
      (dictGet arguments "phone") (dictGet arguments "status")
  else if tool_name == "create_ticket" then do
    ops.create_ticket (← dictGetE arguments "customer_id")
      (← dictGetE arguments "issue") (dictGetD arguments "priority" (.vstr "medium"))
  else if tool_name == "get_customer_history" then do
    ops.get_customer_history (← dictGetE arguments "customer_id")
  else if tool_name == "get_tickets" then
    ops.get_tickets (dictGetD arguments "status" (.vstr "all"))
      (dictGetD arguments "priority" (.vstr "all")) (dictGet arguments "customer_ids")
  else .ok (.vobj [("error", .vstr ("Unknown tool: " ++ tool_name))])

/-- `MCPClient.call_tool` (mcp_client.py lines 43-101): run the routing
body inside `try`; any exception is converted to the error shape naming
the tool and the arguments that failed. -/
def MCPClient.call_tool (ops : MCPOps) (tool_name : String) (arguments : Dict) : Val :=
  match callToolBody ops tool_name arguments with
  | .ok result => result
  | .error e =>
      .vobj [("error", .vstr e), ("tool", .vstr tool_name), ("arguments", .vobj arguments)]

/-- The Text Generator collaborator: a prompt in, the response text out
(the call can raise). -/
structure TextGen where
  generate_content : String → Except String String

/-- The email-validation prompt `update_customer` builds
(data_agent.py lines 186-194). -/
def emailValidationPrompt (email : Val) : String :=
  "\nValidate this email address: " ++ pyStr email ++
    "\n\nRespond with JSON:\n\x7b\n    \"valid\": true/false,\n    \"message\": \"explanation\"\n\x7d\n"

/-- Python `str.strip()`: drop leading and trailing whitespace
(modelled executably over the character list). -/
def pyStrip (s : String) : String :=
  ⟨((s.data.dropWhile Char.isWhitespace).reverse.dropWhile Char.isWhitespace).reverse⟩

/-- Replace every occurrence of a non-empty pattern, left to right, with
fuel bounding the scan (the callers pass the text length). -/
def replaceChars : Nat → List Char → List Char → List Char → List Char
  | 0, _, _, l => l
  | _ + 1, _, _, [] => []
  | fuel + 1, pat, rep, c :: rest =>
      if pat ≠ [] ∧ pat.isPrefixOf (c :: rest) then
        rep ++ replaceChars fuel pat rep ((c :: rest).drop pat.length)
      else c :: replaceChars fuel pat rep rest

/-- Python `str.replace(pat, rep)` (modelled executably). -/
def pyReplace (s pat rep : String) : String :=
  ⟨replaceChars s.data.length pat.data rep.data s.data⟩

/-- `.strip()` then removal of the known code-fence wrappers then
`.strip()` again, as the agents do before parsing generator output. -/
def stripFences (s : String) : String :=
  pyStrip (pyReplace (pyReplace (pyStrip s) "```json" "") "```" "")

/-- `CustomerDataAgent.update_customer` (data_agent.py lines 159-215):
build the update mapping from the truthy fields; when an email is
supplied, ask the Text Generator to validate it and parse the reply
(`json.loads` is the external standard library, passed as `jsonLoads`);
on a falsy `valid` short-circuit with the invalid-email error; otherwise
call the Tool Gateway. Returns the result together with the list of Tool
Gateway invocations made (name and arguments), so that "the gateway was
never called" is the trace being empty. -/
def CustomerDataAgent.update_customer (model : TextGen)
    (jsonLoads : String → Except String Val)
    (callTool : String → Dict → Val)
    (customer_id name email phone status : Val) :
    Except String (Val × List (String × Dict)) := do
  let update_data : Dict := [("customer_id", customer_id)]
  let update_data := if truthy name then update_data ++ [("name", name)] else update_data
  let update_data := if truthy email then update_data ++ [("email", email)] else update_data
  let update_data := if truthy phone then update_data ++ [("phone", phone)] else update_data
  let update_data := if truthy status then update_data ++ [("status", status)] else update_data
  if truthy email then
    let text ← model.generate_content (emailValidationPrompt email)
    let validation ← jsonLoads (stripFences text)
    let validv ← vget validation "valid"
    if !truthy validv then
      let msgv ← vget validation "message"
      return (.vobj [("error", .vstr ("Invalid email: " ++ pyStr msgv)),
                     ("customer_id", customer_id)], [])
  let result := callTool "update_customer" update_data
  return (result, [("update_customer", update_data)])

/-- `RouterAgent._handle_simple_query` (router_agent.py lines 158-185):
resolve the customer id from the explicit argument (an `Optional[int]`
value) or the classifier's `customer_id_mentioned`, both by truthiness;
with no truthy id, return the in-band error without building or sending
any envelope; otherwise send one `get_customer` envelope to the Data
Agent and return its response's `result`. The uuid and clock readings
are parameters `u1 t1 r1`. -/
def RouterAgent.handle_simple_query (dOps : DataOps) (query : String)
    (customer_id : Val) (intent_analysis : Dict)
    (u1 t1 r1 : String) (log : Logger) : Val × Logger :=
  let cid := if truthy customer_id then customer_id
             else dictGet intent_analysis "customer_id_mentioned"
  if !truthy cid then
    (.vobj [("error", .vstr "Customer ID required but not provided")], log)
  else
    let message := A2AMessage.init "get_customer" (.vobj [("customer_id", cid)])
      "router_agent" "data_agent" none u1 t1
    let (response, log) := CustomerDataAgent.handle_message dOps message r1 log
    (response.result, log)

/-- `RouterAgent._handle_coordinated_query` (router_agent.py lines
187-227): with a truthy customer id, send `get_customer` to the Data
Agent and take `data_response.result.get("customer")` as context — an
attribute access that raises when `result` is None, i.e. when the Data
Agent answered with an error envelope, so the handler is Except-valued;
then always send `handle_support_query` to the Support Agent with that
context and merge both into the returned mapping. -/
def RouterAgent.handle_coordinated_query (dOps : DataOps) (sOps : SupportOps)
    (query : String) (customer_id : Val) (intent_analysis : Dict)
    (u1 t1 r1 u2 t2 r2 : String) (log : Logger) :
    Except String (Val × Logger) := do
  let cid := if truthy customer_id then customer_id
             else dictGet intent_analysis "customer_id_mentioned"
  let (customer_context, log) ←
    if truthy cid then do
      let data_message := A2AMessage.init "get_customer" (.vobj [("customer_id", cid)])
        "router_agent" "data_agent" none u1 t1
      let (data_response, log) := CustomerDataAgent.handle_message dOps data_message r1 log
      let ctx ← vget data_response.result "customer"
      pure (ctx, log)
    else pure (Val.vnull, log)
  let support_message := A2AMessage.init "handle_support_query"
    (.vobj [("query", .vstr query), ("customer_context", customer_context)])
    "router_agent" "support_agent" none u2 t2
  let (support_response, log) := SupportAgent.handle_message sOps support_message r2 log
  pure (.vobj [("customer_context", customer_context),
               ("support_response", support_response.result)], log)

/-- One operation on the communication log, for reachability of log
states from the empty log. -/
inductive LogOp where
  | logMsg (m : A2AMessage)
  | logResp (r : A2AResponse)
  | clear

/-- Apply one log operation. -/
def applyLogOp (log : Logger) : LogOp → Logger
  | .logMsg m => A2ALogger.log_message log m
  | .logResp r => A2ALogger.log_response log r
  | .clear => A2ALogger.clear log

/-- Run a sequence of log operations from the empty log. -/
def runLogOps (ops : List LogOp) : Logger :=
  ops.foldl applyLogOp []

/-!
A small explicit-heap model of Python object identity, needed to settle
what a logged entry looks like after the caller mutates a dict that was
passed into an envelope: `A2AMessage.to_dict` stores `self.params` itself
(the same object), not a copy.
-/

/-- A heap value: immutable scalars, or a reference to a mutable dict. -/
inductive PVal where
  | pnull : PVal
  | pstr : String → PVal
  | pint : Int → PVal
  | pref : Nat → PVal
deriving Repr, DecidableEq

/-- A mutable Python dict in the heap. -/
abbrev PDict := List (String × PVal)

/-- The heap: dict number `r` is the `r`-th allocated dict. -/
abbrev Heap := List PDict

/-- Allocate a fresh dict, returning the new heap and its reference. -/
def halloc (h : Heap) (d : PDict) : Heap × Nat :=
  (h ++ [d], h.length)

/-- Read a dict out of the heap. -/
def hget (h : Heap) (r : Nat) : PDict :=
  h.getD r []

/-- `d[k] = v` on a plain association list. -/
def setKeyD (d : PDict) (k : String) (v : PVal) : PDict :=
  if d.any (fun kv => kv.1 == k) then
    d.map (fun kv => if kv.1 == k then (k, v) else kv)
  else d ++ [(k, v)]

/-- `d[k] = v` where `d` is the heap dict behind reference `r`. -/
def hsetKey (h : Heap) (r : Nat) (k : String) (v : PVal) : Heap :=
  h.set r (setKeyD (hget h r) k v)

/-- A request envelope whose `params` is a reference to a heap dict, as
in the source where `params` is a caller-supplied mutable mapping. -/
structure PMessage where
  jsonrpc : String
  method : String
  params : Nat
  id : String
  from_agent : String
  to_agent : String
  timestamp : String

/-- `A2AMessage.to_dict` in the heap model: a fresh top-level dict is
allocated each call, but its "params" slot holds `self.params` itself —
the same reference, not a copy. -/
def pToDict (m : PMessage) (h : Heap) : Heap × Nat :=
  halloc h
    [("jsonrpc", .pstr m.jsonrpc), ("method", .pstr m.method), ("params", .pref m.params),
     ("id", .pstr m.id), ("from_agent", .pstr m.from_agent), ("to_agent", .pstr m.to_agent),
     ("timestamp", .pstr m.timestamp)]

/-- `A2ALogger.log_message` in the heap model: the appended entry holds a
reference to the dict `to_dict` built. -/
def plogMessage (h : Heap) (log : List PDict) (m : PMessage) : Heap × List PDict :=
  let (h2, dref) := pToDict m h
  (h2, log ++ [[("type", .pstr "message"), ("data", .pref dref)]])

/-- Render a heap value to a pure value by dereferencing, with fuel (the
structures at hand are shallow and acyclic). -/
def renderP (h : Heap) : Nat → PVal → Val
  | 0, _ => .vnull
  | _, .pnull => .vnull
  | _, .pstr s => .vstr s
  | _, .pint n => .vint n
  | fuel + 1, .pref r => .vobj ((hget h r).map (fun kv => (kv.1, renderP h fuel kv.2)))

/-- Render a log entry (a dict of heap values) to a pure value. -/
def renderEntry (h : Heap) (fuel : Nat) (e : PDict) : Val :=
  .vobj (e.map (fun kv => (kv.1, renderP h fuel kv.2)))

/-- A Data Agent operation table whose every operation raises, for
exercising the error-wrapping paths on concrete inputs. -/
def raisingDataOps : DataOps :=
  ⟨fun _ => .error "boom", fun _ _ => .error "boom", fun _ _ => .error "boom",
   fun _ => .error "boom", fun _ _ _ => .error "boom", fun _ => .error "boom"⟩

/-- A Support Agent operation table whose every operation raises. -/
def raisingSupportOps : SupportOps :=
  ⟨fun _ _ _ => .error "boom", fun _ => .error "boom",
   fun _ _ => .error "boom", fun _ => .error "boom"⟩

/-- A Support Agent operation table answering a fixed reply. -/
def okSupportOps : SupportOps :=
  ⟨fun _ _ _ => .ok (.vobj [("response", .vstr "ok")]), fun _ => .ok .vnull,
   fun _ _ => .ok .vnull, fun _ => .ok .vnull⟩

/-- A Data Agent operation table where `get_customer` succeeds with a
found-customer payload. -/
def okDataOps : DataOps :=
  ⟨fun cid => .ok (.vobj [("success", .vbool true),
      ("customer", .vobj [("id", cid), ("name", .vstr "Alice")])]),
   fun _ _ => .ok .vnull, fun _ _ => .ok .vnull,
   fun _ => .ok .vnull, fun _ _ _ => .ok .vnull, fun _ => .ok .vnull⟩

/-- A Data Store operation table whose every operation raises. -/
def raisingMCPOps : MCPOps :=
  ⟨fun _ => .error "db down", fun _ _ => .error "db down",
   fun _ _ _ _ _ => .error "db down", fun _ _ _ => .error "db down",
   fun _ => .error "db down", fun _ _ _ => .error "db down"⟩

/-- A Text Generator fixture answering a fixed verdict text. -/
def invalidVerdictGen : TextGen := ⟨fun _ => .ok "RESP"⟩

/-- A `json.loads` fixture parsing the fixed verdict text to an
invalid-email verdict. -/
def fixtureJsonLoads : String → Except String Val := fun s =>
  if s == "RESP" then
    .ok (.vobj [("valid", .vbool false), ("message", .vstr "missing at sign")])
  else .error "json"

/-- A Tool Gateway fixture that would report success if invoked. -/
def fixtureCallTool : String → Dict → Val := fun _ _ => .vobj [("success", .vbool true)]

/-- The C4 scenario: a request whose params dict lives at heap
reference 0 with one key "q" mapped to "hi". -/
def c4Message : PMessage :=
  ⟨"2.0", "get_customer", 0, "req-4", "router_agent", "data_agent", "t4"⟩

/-- The heap after logging the C4 request. -/
def c4HeapAfterLog : Heap :=
  (plogMessage (halloc [] [("q", .pstr "hi")]).1 [] c4Message).1

/-- The log after logging the C4 request. -/
def c4Log : List PDict :=
  (plogMessage (halloc [] [("q", .pstr "hi")]).1 [] c4Message).2

/-- The heap after the caller then mutates the request's params dict
(`message.params["q"] = "changed"`). -/
def c4HeapMutated : Heap := hsetKey c4HeapAfterLog 0 "q" (.pstr "changed")

/-- C1 (amended): every Response Envelope the constructor accepts
serializes with exactly one of the keys result/error — never both, never
neither; and whenever the `error` field is truthy (non-null and
non-empty), the result key is omitted entirely. An error equal to the
empty mapping (non-null but falsy) is serialized as if absent. -/
theorem response_to_dict_exactly_one_of_result_error
    (result : Val) (error : Option Dict) (id from_agent : Option String) (now : String) :
    ((hasKey (A2AResponse.init result error id from_agent now).to_dict "error" = true ∧
      hasKey (A2AResponse.init result error id from_agent now).to_dict "result" = false) ∨
     (hasKey (A2AResponse.init result error id from_agent now).to_dict "result" = true ∧
      hasKey (A2AResponse.init result error id from_agent now).to_dict "error" = false)) ∧
    (errTruthy error = true →
      hasKey (A2AResponse.init result error id from_agent now).to_dict "result" = false ∧
      hasKey (A2AResponse.init result error id from_agent now).to_dict "error" = true) := by
  cases h : errTruthy error <;>
    simp [A2AResponse.to_dict, A2AResponse.init, hasKey, h]

/-- Witness for C1 at a concrete error response. -/
theorem response_to_dict_exactly_one_of_result_error_witness :
    hasKey (A2AResponse.init .vnull
        (some [("code", .vint (-32603)), ("message", .vstr "boom")])
        (some "req-1") (some "data_agent") "t1").to_dict "result" = false ∧
    hasKey (A2AResponse.init .vnull
        (some [("code", .vint (-32603)), ("message", .vstr "boom")])
        (some "req-1") (some "data_agent") "t1").to_dict "error" = true :=
  (response_to_dict_exactly_one_of_result_error .vnull
      (some [("code", .vint (-32603)), ("message", .vstr "boom")])
      (some "req-1") (some "data_agent") "t1").2 rfl

/-- C1 counterexample to the claim as stated: the constructor accepts an
empty error mapping, which is non-null, yet the serialized form then
carries the result key and omits the error key. -/
theorem response_empty_error_serializes_result :
    (A2AResponse.init .vnull (some []) (some "req-2") (some "data_agent") "t2").error ≠ none ∧
    hasKey (A2AResponse.init .vnull (some []) (some "req-2")
      (some "data_agent") "t2").to_dict "result" = true ∧
    hasKey (A2AResponse.init .vnull (some []) (some "req-2")
      (some "data_agent") "t2").to_dict "error" = false := by
  refine ⟨?_, rfl, rfl⟩
  simp [A2AResponse.init]

/-- C2: for every incoming envelope, both agents' `handle_message` return
(total, never raise) a response echoing the request id; and whenever the
dispatched internal operation raises, the response is an error envelope
with code -32603 and the exception's message (and a null result). -/
theorem handle_message_echoes_id_and_wraps_errors
    (dOps : DataOps) (sOps : SupportOps) (msg : A2AMessage) (now : String) (log : Logger) :
    ((CustomerDataAgent.handle_message dOps msg now log).1.id = some msg.id ∧
      ∀ e, dataDispatch dOps msg.method msg.params = .error e →
        (CustomerDataAgent.handle_message dOps msg now log).1.error =
            some [("code", .vint (-32603)), ("message", .vstr e)] ∧
          (CustomerDataAgent.handle_message dOps msg now log).1.result = .vnull) ∧
    ((SupportAgent.handle_message sOps msg now log).1.id = some msg.id ∧
      ∀ e, supportDispatch sOps msg.method msg.params = .error e →
        (SupportAgent.handle_message sOps msg now log).1.error =
            some [("code", .vint (-32603)), ("message", .vstr e)] ∧
          (SupportAgent.handle_message sOps msg now log).1.result = .vnull) := by
  refine ⟨⟨?_, ?_⟩, ⟨?_, ?_⟩⟩
  · unfold CustomerDataAgent.handle_message
    cases dataDispatch dOps msg.method msg.params <;> simp [A2AResponse.init]
  · intro e he
    simp [CustomerDataAgent.handle_message, he, A2AResponse.init]
  · unfold SupportAgent.handle_message
    cases supportDispatch sOps msg.method msg.params <;> simp [A2AResponse.init]
  · intro e he
    simp [SupportAgent.handle_message, he, A2AResponse.init]

/-- Witness for C2: a `get_tickets` request against operation tables that
raise, for both agents. -/
theorem handle_message_echoes_id_and_wraps_errors_witness :
    (CustomerDataAgent.handle_message raisingDataOps
        (A2AMessage.init "get_tickets" (.vobj []) "router_agent" "data_agent"
          none "u0" "t0") "r0" []).1.error =
      some [("code", .vint (-32603)), ("message", .vstr "boom")] ∧
    (SupportAgent.handle_message raisingSupportOps
        (A2AMessage.init "get_tickets" (.vobj []) "router_agent" "data_agent"
          none "u0" "t0") "r0" []).1.error =
      some [("code", .vint (-32603)), ("message", .vstr "boom")] := by
  have h := handle_message_echoes_id_and_wraps_errors raisingDataOps raisingSupportOps
    (A2AMessage.init "get_tickets" (.vobj []) "router_agent" "data_agent" none "u0" "t0")
    "r0" []
  exact ⟨(h.1.2 "boom" rfl).1, (h.2.2 "boom" rfl).1⟩

/-- An entry whose type tag equals "message" does not equal "response". -/
theorem message_entry_not_response (e : LogEntry) :
    isMessageEntry e = true → isResponseEntry e = false := by
  unfold isMessageEntry isResponseEntry valEqStr
  cases dictGet e "type" with
  | vstr t => simp +contextual
  | vnull => simp
  | vbool b => simp
  | vint n => simp
  | varr xs => simp
  | vobj fs => simp

/-- Every entry of a log reachable from a well-tagged log is tagged
"message" or "response": the logger only ever appends such entries. -/
theorem foldl_applyLogOp_entry_kinds (ops : List LogOp) (l0 : Logger)
    (h : ∀ e ∈ l0, isMessageEntry e || isResponseEntry e) :
    ∀ e ∈ ops.foldl applyLogOp l0, isMessageEntry e || isResponseEntry e := by
  induction ops generalizing l0 with
  | nil => exact h
  | cons op rest ih =>
      refine ih (applyLogOp l0 op) ?_
      intro x hx
      cases op with
      | logMsg m =>
          rcases List.mem_append.mp hx with hl | hr
          · exact h x hl
          · rw [List.mem_singleton.mp hr]; rfl
      | logResp r =>
          rcases List.mem_append.mp hx with hl | hr
          · exact h x hl
          · rw [List.mem_singleton.mp hr]; rfl
      | clear => exact absurd hx (List.not_mem_nil x)

/-- On a well-tagged log, length splits into the two kind counts. -/
theorem length_eq_countP_add (l : Logger)
    (h : ∀ e ∈ l, isMessageEntry e || isResponseEntry e) :
    l.length = l.countP (fun m => isMessageEntry m) +
      l.countP (fun m => isResponseEntry m) := by
  induction l with
  | nil => simp
  | cons e rest ih =>
      have he := h e (List.mem_cons_self e rest)
      have hrest := ih (fun x hx => h x (List.mem_cons_of_mem e hx))
      rw [List.countP_cons, List.countP_cons, List.length_cons, hrest]
      cases hm : isMessageEntry e with
      | true => have := message_entry_not_response e hm; simp [this]; omega
      | false =>
          cases hr : isResponseEntry e with
          | true => simp; omega
          | false => rw [hm] at he; rw [hr] at he; simp at he

/-- C9: in every log state reachable from the empty log by any sequence
of log_message, log_response and clear, `summary()` reports
total_communications equal to messages_sent plus responses_received, and
errors at most responses_received. -/
theorem summary_total_and_errors (ops : List LogOp) :
    ∃ M R E : ℕ,
      A2ALogger.summary (runLogOps ops) =
        [("total_communications", .vint (M + R)),
         ("messages_sent", .vint M),
         ("responses_received", .vint R),
         ("errors", .vint E)] ∧ E ≤ R := by
  refine ⟨(runLogOps ops).countP (fun m => isMessageEntry m),
          (runLogOps ops).countP (fun m => isResponseEntry m),
          (runLogOps ops).countP (fun m => isErrorEntry m), ?_, ?_⟩
  · have hlen := length_eq_countP_add (runLogOps ops)
      (foldl_applyLogOp_entry_kinds ops []
        (fun e he => absurd he (List.not_mem_nil e)))
    unfold A2ALogger.summary
    rw [hlen]
    push_cast
    rfl
  · exact List.countP_mono_left
      (fun x _ hx => by simp only [isErrorEntry, Bool.and_eq_true] at hx; exact hx.1)

/-- A constructed envelope's id is never the empty string: the
constructor replaces a falsy id with the freshly drawn uuid. -/
theorem init_id_ne_empty (method : String) (params : Val)
    (from_agent to_agent : String) (id : Option String) (freshUuid now : String)
    (h : freshUuid ≠ "") :
    (A2AMessage.init method params from_agent to_agent id freshUuid now).id ≠ "" := by
  unfold A2AMessage.init
  cases id with
  | none => exact h
  | some s =>
      by_cases hs : s = ""
      · simp [hs, h]
      · simp [hs]

/-- C5: deserializing the serialized mapping form of every constructed
request envelope yields an envelope equal in every field (protocol
version, method, params, id, from_agent, to_agent and timestamp; the
timestamp is present in the serialized form, so it is preserved
exactly), provided the freshly drawn uuid of the original construction
is a non-empty string, as `str(uuid.uuid4())` always is. -/
theorem message_round_trip (method : String) (params : Val)
    (from_agent to_agent : String) (id : Option String)
    (freshUuid now freshUuid2 now2 : String) (h : freshUuid ≠ "") :
    A2AMessage.from_dict
        (A2AMessage.init method params from_agent to_agent id freshUuid now).to_dict
        freshUuid2 now2 =
      .ok (A2AMessage.init method params from_agent to_agent id freshUuid now) := by
  unfold A2AMessage.from_dict A2AMessage.to_dict A2AMessage.init
  cases id with
  | none =>
      simp [dictGetE, dictGet, hasKey, expectStr, h,
        Bind.bind, Except.bind, Functor.map, Except.map, pure, Except.pure]
  | some s =>
      by_cases hs : s = "" <;>
        simp [dictGetE, dictGet, hasKey, expectStr, h, hs,
          Bind.bind, Except.bind, Functor.map, Except.map, pure, Except.pure]

/-- Witness for C5 at a concrete envelope. -/
theorem message_round_trip_witness :
    A2AMessage.from_dict
        (A2AMessage.init "get_customer" (.vobj [("customer_id", .vint 5)])
          "router_agent" "data_agent" (some "req-9") "uuid-1" "t1").to_dict
        "uuid-2" "t2" =
      .ok (A2AMessage.init "get_customer" (.vobj [("customer_id", .vint 5)])
        "router_agent" "data_agent" (some "req-9") "uuid-1" "t1") :=
  message_round_trip "get_customer" (.vobj [("customer_id", .vint 5)])
    "router_agent" "data_agent" (some "req-9") "uuid-1" "t1" "uuid-2" "t2"
    (by decide)

/-- C6: the Tool Gateway's `call_tool` never raises past the boundary (it
is a total function): calling any undefined operation name returns the
unknown-tool error mapping, and any exception from a defined operation is
converted to a mapping carrying the error, the tool name and the
arguments that failed. -/
theorem call_tool_never_raises (ops : MCPOps) (tool_name : String) (arguments : Dict) :
    (tool_name ∉ ["get_customer", "list_customers", "update_customer",
        "create_ticket", "get_customer_history", "get_tickets"] →
      MCPClient.call_tool ops tool_name arguments =
        .vobj [("error", .vstr ("Unknown tool: " ++ tool_name))]) ∧
    (∀ e, callToolBody ops tool_name arguments = .error e →
      MCPClient.call_tool ops tool_name arguments =
        .vobj [("error", .vstr e), ("tool", .vstr tool_name),
               ("arguments", .vobj arguments)]) := by
  constructor
  · intro hname
    simp only [List.mem_cons, List.not_mem_nil, or_false] at hname
    push_neg at hname
    obtain ⟨h1, h2, h3, h4, h5, h6⟩ := hname
    simp [MCPClient.call_tool, callToolBody, h1, h2, h3, h4, h5, h6]
  · intro e he
    simp [MCPClient.call_tool, he]

/-- Witness for C6: an undefined tool name, and a defined operation that
raises against a store that is down. -/
theorem call_tool_never_raises_witness :
    MCPClient.call_tool raisingMCPOps "frobnicate" [] =
      .vobj [("error", .vstr "Unknown tool: frobnicate")] ∧
    MCPClient.call_tool raisingMCPOps "get_customer" [("customer_id", .vint 1)] =
      .vobj [("error", .vstr "db down"), ("tool", .vstr "get_customer"),
             ("arguments", .vobj [("customer_id", .vint 1)])] :=
  ⟨(call_tool_never_raises raisingMCPOps "frobnicate" []).1 (by decide),
   (call_tool_never_raises raisingMCPOps "get_customer" [("customer_id", .vint 1)]).2
     "db down" rfl⟩

/-- C7: when the supplied email is truthy and the Text Generator's
validation verdict parses to a mapping whose "valid" entry is falsy, the
Data Agent's `update_customer` returns the invalid-email error carrying
the customer id, and the Tool Gateway is never invoked (the trace of
gateway calls is empty, so the stored customer record is untouched). -/
theorem update_customer_invalid_email_short_circuits
    (model : TextGen) (jsonLoads : String → Except String Val)
    (callTool : String → Dict → Val)
    (customer_id name email phone status : Val)
    (t : String) (fs : List (String × Val))
    (he : truthy email = true)
    (hgen : model.generate_content (emailValidationPrompt email) = .ok t)
    (hparse : jsonLoads (stripFences t) = .ok (.vobj fs))
    (hvalid : truthy (dictGet fs "valid") = false) :
    CustomerDataAgent.update_customer model jsonLoads callTool
        customer_id name email phone status =
      .ok (.vobj [("error", .vstr ("Invalid email: " ++ pyStr (dictGet fs "message"))),
                  ("customer_id", customer_id)], []) := by
  unfold CustomerDataAgent.update_customer
  simp [he, hgen, hparse, hvalid, vget,
    Bind.bind, Except.bind, pure, Except.pure]

/-- Witness for C7 at a concrete invalid email. -/
theorem update_customer_invalid_email_short_circuits_witness :
    CustomerDataAgent.update_customer invalidVerdictGen fixtureJsonLoads fixtureCallTool
        (.vint 3) .vnull (.vstr "bad-email") .vnull .vnull =
      .ok (.vobj [("error", .vstr "Invalid email: missing at sign"),
                  ("customer_id", .vint 3)], []) :=
  update_customer_invalid_email_short_circuits invalidVerdictGen fixtureJsonLoads
    fixtureCallTool (.vint 3) .vnull (.vstr "bad-email") .vnull .vnull
    "RESP" [("valid", .vbool false), ("message", .vstr "missing at sign")]
    rfl rfl rfl rfl

/-- C8: for simple_data_retrieval with no customer id supplied either as
the explicit argument or as the classifier's `customer_id_mentioned`
(both falsy), `route_query` returns the required-id error and the log is
unchanged — no envelope is sent to any agent. -/
theorem simple_query_requires_customer_id
    (dOps : DataOps) (query : String) (customer_id : Val) (intent : Dict)
    (u1 t1 r1 : String) (log : Logger)
    (h1 : truthy customer_id = false)
    (h2 : truthy (dictGet intent "customer_id_mentioned") = false) :
    RouterAgent.handle_simple_query dOps query customer_id intent u1 t1 r1 log =
      (.vobj [("error", .vstr "Customer ID required but not provided")], log) := by
  unfold RouterAgent.handle_simple_query
  simp [h1, h2]

/-- Witness for C8: null explicit id and a classifier mapping without a
customer id. -/
theorem simple_query_requires_customer_id_witness :
    RouterAgent.handle_simple_query raisingDataOps "Show my info" .vnull
        [("type", .vstr "simple_data_retrieval")] "u1" "t1" "r1" [] =
      (.vobj [("error", .vstr "Customer ID required but not provided")], []) :=
  simple_query_requires_customer_id raisingDataOps "Show my info" .vnull
    [("type", .vstr "simple_data_retrieval")] "u1" "t1" "r1" [] rfl rfl

/-- C10: at the `route_query` interface an explicit customer id of 0 is
falsy, so with the classifier reporting 0 or null the simple handler
returns the required-id error without contacting the Data Agent (the log
is returned unchanged). -/
theorem simple_query_zero_id_treated_as_missing
    (dOps : DataOps) (query : String) (u1 t1 r1 : String) (log : Logger) :
    RouterAgent.handle_simple_query dOps query (.vint 0)
        [("customer_id_mentioned", .vint 0)] u1 t1 r1 log =
      (.vobj [("error", .vstr "Customer ID required but not provided")], log) ∧
    RouterAgent.handle_simple_query dOps query (.vint 0)
        [("customer_id_mentioned", .vnull)] u1 t1 r1 log =
      (.vobj [("error", .vstr "Customer ID required but not provided")], log) :=
  ⟨rfl, rfl⟩

/-- C3 (amended): for coordinated_support with a truthy (known) customer
id, the router first sends get_customer to the Data Agent, and whenever
the Data Agent answers with a result envelope whose result is a mapping,
the router always sends handle_support_query to the Support Agent with
context equal to the "customer" field of that result (null when absent,
including when the result is an in-band error mapping), and returns the
merged mapping embedding that context and the support response's result.
When the Data Agent instead answers with an error Response Envelope
(null result), the handler raises an AttributeError and the query
aborts — see the counterexample. -/
theorem coordinated_query_always_reaches_support
    (dOps : DataOps) (sOps : SupportOps) (query : String) (customer_id : Val)
    (intent : Dict) (u1 t1 r1 u2 t2 r2 : String) (log : Logger)
    (fs : List (String × Val))
    (hcid : truthy customer_id = true)
    (hok : dataDispatch dOps "get_customer" (.vobj [("customer_id", customer_id)]) =
      .ok (.vobj fs)) :
    RouterAgent.handle_coordinated_query dOps sOps query customer_id intent
        u1 t1 r1 u2 t2 r2 log =
      .ok (.vobj [("customer_context", dictGet fs "customer"),
            ("support_response",
              (SupportAgent.handle_message sOps
                (A2AMessage.init "handle_support_query"
                  (.vobj [("query", .vstr query),
                          ("customer_context", dictGet fs "customer")])
                  "router_agent" "support_agent" none u2 t2) r2
                (CustomerDataAgent.handle_message dOps
                  (A2AMessage.init "get_customer" (.vobj [("customer_id", customer_id)])
                    "router_agent" "data_agent" none u1 t1) r1 log).2).1.result)],
          (SupportAgent.handle_message sOps
            (A2AMessage.init "handle_support_query"
              (.vobj [("query", .vstr query),
                      ("customer_context", dictGet fs "customer")])
              "router_agent" "support_agent" none u2 t2) r2
            (CustomerDataAgent.handle_message dOps
              (A2AMessage.init "get_customer" (.vobj [("customer_id", customer_id)])
                "router_agent" "data_agent" none u1 t1) r1 log).2).2) := by
  unfold RouterAgent.handle_coordinated_query CustomerDataAgent.handle_message
  simp [hcid, A2AMessage.init, hok, vget, A2AResponse.init,
    Bind.bind, Except.bind, pure, Except.pure]

/-- Witness for C3 (amended) at a concrete found customer. -/
theorem coordinated_query_always_reaches_support_witness :
    RouterAgent.handle_coordinated_query okDataOps okSupportOps
        "I need help with my account" (.vint 7) [] "u1" "t1" "r1" "u2" "t2" "r2" [] =
      .ok (.vobj [("customer_context",
              .vobj [("id", .vint 7), ("name", .vstr "Alice")]),
            ("support_response",
              (SupportAgent.handle_message okSupportOps
                (A2AMessage.init "handle_support_query"
                  (.vobj [("query", .vstr "I need help with my account"),
                          ("customer_context",
                            .vobj [("id", .vint 7), ("name", .vstr "Alice")])])
                  "router_agent" "support_agent" none "u2" "t2") "r2"
                (CustomerDataAgent.handle_message okDataOps
                  (A2AMessage.init "get_customer" (.vobj [("customer_id", .vint 7)])
                    "router_agent" "data_agent" none "u1" "t1") "r1" []).2).1.result)],
          (SupportAgent.handle_message okSupportOps
            (A2AMessage.init "handle_support_query"
              (.vobj [("query", .vstr "I need help with my account"),
                      ("customer_context",
                        .vobj [("id", .vint 7), ("name", .vstr "Alice")])])
              "router_agent" "support_agent" none "u2" "t2") "r2"
            (CustomerDataAgent.handle_message okDataOps
              (A2AMessage.init "get_customer" (.vobj [("customer_id", .vint 7)])
                "router_agent" "data_agent" none "u1" "t1") "r1" []).2).2) :=
  coordinated_query_always_reaches_support okDataOps okSupportOps
    "I need help with my account" (.vint 7) [] "u1" "t1" "r1" "u2" "t2" "r2" []
    [("success", .vbool true),
     ("customer", .vobj [("id", .vint 7), ("name", .vstr "Alice")])]
    rfl rfl

/-- C3 counterexample to the claim as stated: with a known customer id
and a Data Agent whose get_customer operation raises — so the Data Agent
answers with an error Response Envelope whose result is null — the
coordinated handler raises an AttributeError at
`data_response.result.get("customer")` and aborts the whole query: the
Support Agent is never called and no merged mapping is returned. -/
theorem coordinated_query_error_envelope_aborts :
    RouterAgent.handle_coordinated_query raisingDataOps okSupportOps
        "I need help with my account" (.vint 7) [] "u1" "t1" "r1" "u2" "t2" "r2" [] =
      .error "AttributeError: NoneType object has no attribute get" := rfl

/-- C4 (the code violates the claim): `to_dict` stores the request's
params mapping itself in the log entry (a shared reference, not a copy),
so mutating the logged request's params afterwards changes the entry the
log subsequently returns. Concretely: params `\x7b"q": "hi"\x7d` at heap
reference 0 is logged; after `message.params["q"] = "changed"` the sole
entry renders with the changed value. -/
theorem logged_entry_changes_when_params_mutated :
    c4Log = [[("type", .pstr "message"), ("data", .pref 1)]] ∧
    renderEntry c4HeapAfterLog 3 [("type", .pstr "message"), ("data", .pref 1)] =
      .vobj [("type", .vstr "message"),
             ("data", .vobj [("jsonrpc", .vstr "2.0"), ("method", .vstr "get_customer"),
               ("params", .vobj [("q", .vstr "hi")]), ("id", .vstr "req-4"),
               ("from_agent", .vstr "router_agent"), ("to_agent", .vstr "data_agent"),
               ("timestamp", .vstr "t4")])] ∧
    renderEntry c4HeapMutated 3 [("type", .pstr "message"), ("data", .pref 1)] =
      .vobj [("type", .vstr "message"),
             ("data", .vobj [("jsonrpc", .vstr "2.0"), ("method", .vstr "get_customer"),
               ("params", .vobj [("q", .vstr "changed")]), ("id", .vstr "req-4"),
               ("from_agent", .vstr "router_agent"), ("to_agent", .vstr "data_agent"),
               ("timestamp", .vstr "t4")])] ∧
    renderEntry c4HeapAfterLog 3 [("type", .pstr "message"), ("data", .pref 1)] ≠
      renderEntry c4HeapMutated 3 [("type", .pstr "message"), ("data", .pref 1)] := by
  refine ⟨rfl, rfl, rfl, ?_⟩
  intro h
  simp [renderEntry, renderP, c4HeapAfterLog, c4HeapMutated, c4Log, c4Message,
    plogMessage, pToDict, halloc, hget, hsetKey, setKeyD] at h
